import Mathlib

/-!
Shallow embedding of `src/dashboard/app.py` (a Shiny live-temperature
dashboard) and proofs about its buffer, historical filter, rolling
average, regression and display logic.

Temperatures are embedded as rationals (`ℚ`): every float the program
manipulates comes from `round(random.uniform(-18, 1), 1)`, a CSV column,
or the weather feed, and the arithmetic the claims talk about (means,
least squares, rolling averages) is exact rational arithmetic on those
values.
-/

namespace Dashboard

/-- One entry of the live-readings deque: app.py line 93 builds
`{"temp": temp, "timestamp": timestamp}`. -/
structure Entry where
  temp : ℚ
  timestamp : String
deriving DecidableEq

/-- app.py line 24: `DEQUE_SIZE: int = 50`. -/
def DEQUE_SIZE : Nat := 50

/-- Python `collections.deque(maxlen=C).append(x)`: the new element goes to
the right end and, when the deque already holds `C` elements, the leftmost
element is discarded (for `maxlen=0` the deque stays empty).  Appending to a
list and dropping everything before the last `C` elements is exactly that
semantics whenever the list holds at most `C` elements, the deque's
invariant. -/
def dequeAppend (C : Nat) (l : List α) (x : α) : List α :=
  (l ++ [x]).drop ((l ++ [x]).length - C)

/-- The deque contents after the whole push sequence `xs` has been absorbed,
starting from the empty deque created at app.py line 25
(`reactive.value(deque(maxlen=DEQUE_SIZE))`); each tick of
`reactive_calc_combined` (line 96) performs one `dequeAppend`. -/
def pushAll (C : Nat) (xs : List α) : List α :=
  xs.foldl (dequeAppend C) []

theorem length_dequeAppend_le (C : Nat) (l : List α) (x : α)
    (h : l.length ≤ C) : (dequeAppend C l x).length ≤ C := by
  simp only [dequeAppend, List.length_drop, List.length_append,
    List.length_singleton]
  omega

theorem foldl_dequeAppend (C : Nat) (xs : List α) :
    ∀ l : List α, l.length ≤ C →
      xs.foldl (dequeAppend C) l = (l ++ xs).drop (l.length + xs.length - C) := by
  induction xs with
  | nil =>
      intro l h
      simp only [List.foldl_nil, List.append_nil, List.length_nil, Nat.add_zero]
      rw [Nat.sub_eq_zero_of_le h, List.drop_zero]
  | cons x xs ih =>
      intro l h
      rw [List.foldl_cons, ih _ (length_dequeAppend_le C l x h)]
      show ((l ++ [x]).drop ((l ++ [x]).length - C) ++ xs).drop _ = _
      rw [← List.drop_append_of_le_length (Nat.sub_le _ _), List.drop_drop]
      have hxx : (l ++ [x]) ++ xs = l ++ x :: xs := by simp
      rw [hxx]
      congr 1
      simp only [dequeAppend, List.length_drop, List.length_append,
        List.length_singleton, List.length_cons, List.length_nil]
      omega

theorem pushAll_eq_drop (C : Nat) (xs : List α) :
    pushAll C xs = xs.drop (xs.length - C) := by
  have := foldl_dequeAppend C xs [] (by simp)
  simpa [pushAll] using this

theorem length_pushAll (C : Nat) (xs : List α) :
    (pushAll C xs).length = min xs.length C := by
  rw [pushAll_eq_drop]
  simp only [List.length_drop]
  omega

/-- **C1.** Pushing any sequence `xs` of readings into the deque (capacity
`C`, `DEQUE_SIZE = 50` in the code) leaves a buffer of length
`min xs.length C` whose contents are exactly the last `C` pushed readings in
push order; in particular, pushing three readings into a capacity-2 buffer
keeps the last two. -/
theorem buffer_holds_last_C (C : Nat) (xs : List Entry) :
    (pushAll C xs).length = min xs.length C ∧
    pushAll C xs = xs.drop (xs.length - C) ∧
    (∀ a b c : Entry, pushAll 2 [a, b, c] = [b, c]) ∧
    DEQUE_SIZE = 50 := by
  refine ⟨length_pushAll C xs, pushAll_eq_drop C xs, ?_, rfl⟩
  intro a b c
  rw [pushAll_eq_drop]
  rfl

/-!
### Snapshot semantics (app.py lines 96-102)

`reactive_value_wrapper.get()` returns the deque object itself, and
`.append(...)` mutates that object in place.  Line 99
(`deque_snapshot = reactive_value_wrapper.get()`) therefore binds the same
heap object, not a copy: any holder of `deque_snapshot` who reads it after a
later `append` observes the mutated deque.  We embed this aliasing
explicitly: the program has a single cell whose contents are the deque, a
"snapshot" is a reference to that cell, and observing the snapshot when the
store holds `s` dereferences the cell, returning `s`.
-/

/-- Observing the aliased snapshot when the single deque cell currently
holds `s`: dereferencing returns the live contents. -/
def snapshotObserve (s : List Entry) : List Entry := s

/-- **C2 counterexample.** Take the snapshot while the buffer is empty;
after one further push (capacity `DEQUE_SIZE`), observing the snapshot no
longer yields the empty request-time contents: the push changed the
snapshot's value, refuting read-only-copy semantics. -/
theorem snapshot_mutated_by_later_push :
    snapshotObserve (dequeAppend DEQUE_SIZE ([] : List Entry) ⟨0, "t0"⟩) ≠
      ([] : List Entry) := by
  decide

/-- **C2 amended.** The snapshot aliases the live buffer: observing it
when the pushes so far are `xs` yields the buffer's current contents - the
last `C` readings of `xs` in chronological order, of length at most `C` -
i.e. it reflects the readings pushed up to the moment of *observation*, and
a push performed after the snapshot was taken does change its value. -/
theorem snapshot_reflects_observation_time (C : Nat) (xs : List Entry) :
    snapshotObserve (pushAll C xs) = xs.drop (xs.length - C) ∧
    (snapshotObserve (pushAll C xs)).length ≤ C := by
  constructor
  · exact pushAll_eq_drop C xs
  · rw [snapshotObserve, length_pushAll]
    omega

/-!
### Historical filter (app.py lines 111-135)

`filtered_historical_df` reads the selected interval string and filters the
historical dataframe with a boolean row mask.  A pandas boolean mask keeps
exactly the rows satisfying the predicate, in dataframe order, which is
`List.filter` on the row list.
-/

/-- One row of `historical_df`: columns `Date`, `Year`, `Month`,
`Mean Temperature (C)` (app.py lines 28-30; the `Date` payload is opaque to
the filter, kept as an abstract ordinal). -/
structure HistRecord where
  date : Nat
  year : Int
  month : Int
  meanTemp : ℚ
deriving DecidableEq

/-- app.py lines 111-135, `filtered_historical_df`: branch on the selected
interval string and keep the rows passing the corresponding mask; any other
string falls to the `else` branch returning `historical_df` unchanged. -/
def filtered_historical_df (selected_interval : String)
    (current_year current_month : Int) (df : List HistRecord) :
    List HistRecord :=
  if selected_interval = "1 Year" then
    df.filter (fun r =>
      (r.year = current_year - 1 ∧ r.month ≥ current_month) ∨
        r.year = current_year)
  else if selected_interval = "5 years" then
    df.filter (fun r => r.year ≥ current_year - 5)
  else if selected_interval = "25 Years" then
    df.filter (fun r => r.year ≥ current_year - 25)
  else if selected_interval = "50 Years" then
    df.filter (fun r => r.year ≥ current_year - 50)
  else
    df

/-- **C3.** For every dataset and current year `Y` / month `M`: the
`5 years` / `25 Years` / `50 Years` intervals keep exactly the records with
year ≥ Y−5 / Y−25 / Y−50, the `1 Year` interval keeps exactly the records
of year Y−1 with month ≥ M together with all records of year Y, and each
result is a sublist of the dataset (its order is preserved). -/
theorem filtered_historical_df_spec (Y M : Int) (df : List HistRecord) :
    filtered_historical_df "5 years" Y M df =
      df.filter (fun r => r.year ≥ Y - 5) ∧
    filtered_historical_df "25 Years" Y M df =
      df.filter (fun r => r.year ≥ Y - 25) ∧
    filtered_historical_df "50 Years" Y M df =
      df.filter (fun r => r.year ≥ Y - 50) ∧
    filtered_historical_df "1 Year" Y M df =
      df.filter (fun r => (r.year = Y - 1 ∧ r.month ≥ M) ∨ r.year = Y) ∧
    (∀ s : String, (filtered_historical_df s Y M df).Sublist df) := by
  refine ⟨rfl, rfl, rfl, rfl, ?_⟩
  intro s
  unfold filtered_historical_df
  repeat' split
  all_goals first
    | exact List.filter_sublist df
    | exact List.Sublist.refl df

/-- **C10.** Any selected-interval string other than the four recognized
values leaves the historical dataset unfiltered. -/
theorem filtered_historical_df_default (s : String) (Y M : Int)
    (df : List HistRecord)
    (h : s ≠ "1 Year" ∧ s ≠ "5 years" ∧ s ≠ "25 Years" ∧ s ≠ "50 Years") :
    filtered_historical_df s Y M df = df := by
  obtain ⟨h1, h2, h3, h4⟩ := h
  unfold filtered_historical_df
  rw [if_neg h1, if_neg h2, if_neg h3, if_neg h4]

/-- A concrete historical record used to instantiate theorems. -/
def sampleRecord : HistRecord := ⟨0, 2000, 1, -3⟩

/-- **C10 witness.** The unrecognized string `"Historical Data"` (the data
selector's third option, which never names a time interval) passes the
dataset through unchanged. -/
theorem filtered_historical_df_default_witness :
    ("Historical Data" ≠ "1 Year" ∧ "Historical Data" ≠ "5 years" ∧
      "Historical Data" ≠ "25 Years" ∧ "Historical Data" ≠ "50 Years") ∧
    filtered_historical_df "Historical Data" 2025 10 [sampleRecord] =
      [sampleRecord] :=
  ⟨by decide,
    filtered_historical_df_default "Historical Data" 2025 10 [sampleRecord]
      (by decide)⟩

/-!
### Station-time display (app.py lines 201-209)

`display_time` parses the reading's timestamp and evaluates
`utc_time.replace(hour=(utc_time.hour - 3) % 24)`.  `datetime.replace`
substitutes the named field and leaves every other field - in particular
the date - untouched; Python's `%` on a negative left operand and positive
modulus returns the nonnegative representative, i.e. `Int.emod`.
-/

/-- The fields of a Python `datetime` that `display_time` manipulates. -/
structure PyDateTime where
  year : Nat
  month : Nat
  day : Nat
  hour : Int
  minute : Nat
  second : Nat
deriving DecidableEq

/-- app.py lines 206-208: `utc_time.replace(hour=(utc_time.hour - 3) % 24)`.
Only the `hour` field changes; the date fields are copied verbatim. -/
def display_time (utc_time : PyDateTime) : PyDateTime :=
  { utc_time with hour := (utc_time.hour - 3) % 24 }

/-- **C4 at the failing input.** For the valid UTC timestamp
`2024-01-01 01:00:00` the displayed hour is `(1 - 3) % 24 = 22` as claimed,
but the date is still `2024-01-01`: `datetime.replace` never rolls the date
back to the previous day, contradicting both the claim and the function's
own docstring ("Palmer Station time (UTC-3)"). -/
theorem display_time_keeps_date :
    display_time ⟨2024, 1, 1, 1, 0, 0⟩ = ⟨2024, 1, 1, 22, 0, 0⟩ ∧
    (∀ t : PyDateTime, (display_time t).hour = (t.hour - 3) % 24 ∧
      (display_time t).year = t.year ∧ (display_time t).month = t.month ∧
      (display_time t).day = t.day) := by
  exact ⟨by decide, fun t => ⟨rfl, rfl, rfl, rfl⟩⟩

/-!
### Current-temperature display (app.py lines 59-67 and 170-178)

At module import the code performs one blocking fetch
(`responses = openmeteo.weather_api(url, params=params)`, line 59) and
stores the single scalar `current_temperature_2m` (line 67).  There is no
try/except around it: when the collaborator has no value to give, the call
raises (after its 5 retries) and the exception propagates out of the module
body, so the app fails to start.  We embed module initialization as an
`Except`: the feed either supplies a value or the import errors.

`display_temp` (lines 170-178) formats `current_temperature_2m` (or the
latest random reading) unconditionally; no branch produces any placeholder
text.  The display outcome is embedded as an inductive with an explicit
`notYetAvailable` constructor precisely so we can state that the code never
emits it.
-/

/-- Module import, app.py lines 59-67: the external feed either yields the
current temperature scalar or the uncaught fetch exception aborts startup. -/
def appStartup (feed : Option ℚ) : Except String ℚ :=
  match feed with
  | some v => Except.ok v
  | none => Except.error "openmeteo.weather_api raised"

/-- What `display_temp` shows.  `value v` stands for the formatted string
`f"{v:.1f} C"` / `f"{v} C"`; `notYetAvailable` is the placeholder state the
spec requires, present in the embedding only to state that no code path
returns it. -/
inductive TempDisplay where
  | value : ℚ → TempDisplay
  | notYetAvailable : TempDisplay
deriving DecidableEq

/-- app.py lines 170-178, `display_temp`: branch on the source selector and
format a numeric value; both branches produce a temperature string. -/
def display_temp (source : String) (current_temperature_2m : ℚ)
    (latestTemp : ℚ) : TempDisplay :=
  if source = "OpenMeteo API" then TempDisplay.value current_temperature_2m
  else TempDisplay.value latestTemp

/-- **C7 at the failing input.** When the external feed has no value, the
startup fetch raises and the app never starts - no placeholder is shown;
and on every input whatsoever, `display_temp` returns a formatted value,
never the "not yet available" placeholder state the claim requires. -/
theorem display_temp_no_placeholder :
    appStartup none = Except.error "openmeteo.weather_api raised" ∧
    (∀ (source : String) (cur latest : ℚ),
      display_temp source cur latest ≠ TempDisplay.notYetAvailable) := by
  refine ⟨rfl, fun source cur latest => ?_⟩
  unfold display_temp
  split <;> intro h <;> exact TempDisplay.noConfusion h

/-!
### Centered rolling mean (app.py line 290)

`filtered_df['Mean Temperature (C)'].rolling(window=12, center=True).mean()`.
pandas' fixed-window indexer with `center=True` uses
`offset = (window - 1) // 2` and computes, for the label at position `i`,
the half-open row window `[i + 1 + offset - window, i + 1 + offset)`;
with the default `min_periods` (= the window size) the mean is emitted only
when that whole window lies inside the series, otherwise the entry is NaN
(embedded as `none`).  For `window = 12` the offset is 5, so the window at
`i` is rows `i - 6 .. i + 5`.
-/

/-- pandas `Series.rolling(window=w, center=True).mean()` on the list of
column values, NaN as `none`. -/
def rollingMeanCentered (w : Nat) (xs : List ℚ) : List (Option ℚ) :=
  (List.range xs.length).map (fun i =>
    let e := i + 1 + (w - 1) / 2
    if w ≤ e ∧ e ≤ xs.length then
      some (((xs.drop (e - w)).take w).sum / (w : ℚ))
    else none)

theorem rollingMeanCentered_getD (w : Nat) (xs : List ℚ) (i : Nat)
    (hi : i < xs.length) :
    (rollingMeanCentered w xs).getD i none =
      (if w ≤ i + 1 + (w - 1) / 2 ∧ i + 1 + (w - 1) / 2 ≤ xs.length then
        some (((xs.drop (i + 1 + (w - 1) / 2 - w)).take w).sum / (w : ℚ))
      else none) := by
  unfold rollingMeanCentered
  rw [List.getD_eq_getElem?_getD, List.getElem?_map, List.getElem?_range hi]
  rfl

/-- The claim's shape for C5: the running average over a slice `xs` is
defined at exactly the positions outside the first five and last five. -/
def definedOutsideFirstLastFive (xs : List ℚ) : Prop :=
  ∀ i, i < xs.length →
    (((rollingMeanCentered 12 xs).getD i none).isSome ↔
      5 ≤ i ∧ i + 5 < xs.length)

instance (xs : List ℚ) : Decidable (definedOutsideFirstLastFive xs) := by
  unfold definedOutsideFirstLastFive
  infer_instance

/-- **C5 counterexample.** On a slice of length 12 the claim says positions
5 and 6 carry a defined running average (only the first five and last five
are undefined), but pandas' centered window of 12 needs six rows before the
label: position 5 is NaN, so the running average is defined at one position
(index 6), not two. -/
theorem rolling_undefined_at_position_five :
    ¬ definedOutsideFirstLastFive (List.replicate 12 (0 : ℚ)) := by
  intro h
  have h5 := h 5 (by simp)
  rw [rollingMeanCentered_getD 12 _ 5 (by simp)] at h5
  simp at h5

/-- **C5 amended.** For every slice of length `n ≥ 12`, the centered
window-12 running average is defined at exactly the positions where the
full pandas window (six rows before the label through five after) fits:
it is undefined at exactly the first **six** and last five positions, and
where defined it is the mean of those twelve values. -/
theorem rollingMeanCentered_defined_iff (xs : List ℚ) (_h : 12 ≤ xs.length)
    (i : Nat) (hi : i < xs.length) :
    (((rollingMeanCentered 12 xs).getD i none).isSome ↔
      6 ≤ i ∧ i + 6 ≤ xs.length) ∧
    (6 ≤ i → i + 6 ≤ xs.length →
      (rollingMeanCentered 12 xs).getD i none =
        some (((xs.drop (i - 6)).take 12).sum / 12)) := by
  have hoff : i + 1 + (12 - 1) / 2 = i + 6 := by norm_num
  rw [rollingMeanCentered_getD 12 xs i hi, hoff]
  constructor
  · split
    · next hc => simp only [Option.isSome_some, true_iff]; omega
    · next hc =>
        simp only [Option.isSome_none, Bool.false_eq_true, false_iff]
        omega
  · intro h6 hn
    rw [if_pos ⟨by omega, hn⟩]
    have h12 : i + 6 - 12 = i - 6 := by omega
    rw [h12]
    norm_num

/-- **C5 amended, witness.** A slice of length 12 has its single defined
running-average entry at index 6, the mean of the whole slice. -/
theorem rollingMeanCentered_defined_iff_witness :
    (12 ≤ (List.replicate 12 (1 : ℚ)).length ∧
      6 < (List.replicate 12 (1 : ℚ)).length) ∧
    ((((rollingMeanCentered 12 (List.replicate 12 (1 : ℚ))).getD 6
        none).isSome ↔
      6 ≤ 6 ∧ 6 + 6 ≤ (List.replicate 12 (1 : ℚ)).length) ∧
    (6 ≤ 6 → 6 + 6 ≤ (List.replicate 12 (1 : ℚ)).length →
      (rollingMeanCentered 12 (List.replicate 12 (1 : ℚ))).getD 6 none =
        some ((((List.replicate 12 (1 : ℚ)).drop (6 - 6)).take 12).sum /
          12))) :=
  ⟨by constructor <;> simp,
    rollingMeanCentered_defined_iff (List.replicate 12 (1 : ℚ)) (by simp) 6
      (by simp)⟩

/-- **C9.** Every entry of the centered window-12 running average of a
constant series is either undefined or equal to that constant. -/
theorem rolling_constant_series (n : Nat) (c : ℚ) (r : Option ℚ)
    (hr : r ∈ rollingMeanCentered 12 (List.replicate n c)) :
    r = none ∨ r = some c := by
  unfold rollingMeanCentered at hr
  rw [List.mem_map] at hr
  obtain ⟨i, hi, hfi⟩ := hr
  rw [List.mem_range] at hi
  by_cases hc : 12 ≤ i + 1 + (12 - 1) / 2 ∧
      i + 1 + (12 - 1) / 2 ≤ (List.replicate n c).length
  · right
    rw [← hfi, if_pos hc]
    obtain ⟨h1, h2⟩ := hc
    simp only [List.length_replicate] at h2
    rw [List.drop_replicate, List.take_replicate]
    have hmin : min 12 (n - (i + 1 + (12 - 1) / 2 - 12)) = 12 := by omega
    rw [hmin, List.sum_replicate, nsmul_eq_mul]
    norm_num
  · left
    rw [← hfi, if_neg hc]

theorem mem_rolling_const_twelve :
    some (3 : ℚ) ∈ rollingMeanCentered 12 (List.replicate 12 (3 : ℚ)) := by
  have hlen : 6 < (List.replicate 12 (3 : ℚ)).length := by simp
  have hval :
      (rollingMeanCentered 12 (List.replicate 12 (3 : ℚ))).getD 6 none =
        some 3 := by
    rw [rollingMeanCentered_getD 12 _ 6 hlen]
    rw [if_pos (by simp)]
    norm_num [List.drop_replicate, List.take_replicate, List.sum_replicate]
  rw [List.getD_eq_getElem?_getD] at hval
  rcases h6 : (rollingMeanCentered 12 (List.replicate 12 (3 : ℚ)))[6]? with
    _ | v
  · rw [h6] at hval
    simp at hval
  · rw [h6] at hval
    simp only [Option.getD_some] at hval
    rw [← hval]
    exact List.getElem?_mem h6

/-- **C9 witness.** On the constant-3 series of length 12, the defined
running-average entry `some 3` is in the result and equals the constant. -/
theorem rolling_constant_series_witness :
    (some (3 : ℚ) ∈ rollingMeanCentered 12 (List.replicate 12 (3 : ℚ))) ∧
    (some (3 : ℚ) = none ∨ some (3 : ℚ) = some (3 : ℚ)) :=
  ⟨mem_rolling_const_twelve,
    rolling_constant_series 12 3 (some 3) mem_rolling_const_twelve⟩

/-!
### Live-data plot and least-squares line (app.py lines 230-273)

`display_plot` (random-source branch, lines 241-273) returns an empty
scatter when the snapshot dataframe is empty; otherwise it always runs
`scipy.stats.linregress(x_vals, y_vals)` with `x_vals = list(range(len(df)))`
and attaches `best_fit_line = [slope * x + intercept for x in x_vals]` as a
trace (`fig.add_scatter`, line 267).

`scipy.stats.linregress` computes `ssxm = mean((x - mean x)^2)`,
`ssxym = mean((x - mean x) * (y - mean y))` (via `np.cov(x, y, bias=1)`),
`slope = ssxym / ssxm` and `intercept = mean y - slope * mean x`.  Its
identical-x `ValueError` guard requires `len(x) > 1`, and `x = 0..n-1` has
distinct values for `n ≥ 2`, so in `display_plot` that branch is
unreachable; `ssxm = 0` happens exactly for a single point, where numpy's
`0.0 / 0.0` yields NaN slope and intercept without raising.  `none` embeds
that NaN outcome.
-/

def listMean (xs : List ℚ) : ℚ := xs.sum / xs.length

/-- `scipy.stats.linregress` restricted to what `display_plot` consumes:
`some (slope, intercept)`, or `none` when the x-variance is zero and the
float result would be NaN. -/
def linregress (x y : List ℚ) : Option (ℚ × ℚ) :=
  let xm := listMean x
  let ym := listMean y
  let ssxm := listMean (x.map (fun a => (a - xm) ^ 2))
  let ssxym := listMean ((x.zip y).map (fun p => (p.1 - xm) * (p.2 - ym)))
  if ssxm = 0 then none
  else some (ssxym / ssxm, ym - ssxym / ssxm * xm)

/-- The chart `display_plot` builds in its random-source branch: the raw
temperature points, and optionally an attached regression trace whose
fitted values may individually be NaN (`none`). -/
structure LiveChart where
  points : List ℚ
  regLine : Option (List (Option ℚ))
deriving DecidableEq

/-- app.py lines 259-260: `sequence = range(len(df)); x_vals = list(sequence)`. -/
def xVals (n : Nat) : List ℚ := (List.range n).map (fun i : Nat => (i : ℚ))

/-- app.py lines 241-273: empty snapshot yields the empty scatter with no
trace; any non-empty snapshot computes the regression over
`x_vals = 0..n-1` and attaches the best-fit trace. -/
def display_plot (temps : List ℚ) : LiveChart :=
  if temps.isEmpty then { points := [], regLine := none }
  else
    let lr := linregress (xVals temps.length) temps
    { points := temps,
      regLine := some ((xVals temps.length).map
        (fun xv => lr.map (fun p => p.1 * xv + p.2))) }

theorem xVals_one : xVals 1 = [0] := by
  simp [xVals, List.range_succ]

theorem xVals_three : xVals 3 = [0, 1, 2] := by
  simp [xVals, List.range_succ]

theorem linregress_single_point (t : ℚ) : linregress [0] [t] = none := by
  norm_num [linregress, listMean]

/-- **C6 counterexample.** A one-reading snapshot has fewer than 2 points,
yet `display_plot` does not omit the regression line: it attaches a trace
(whose single fitted value is the NaN `none`), refuting "the regression is
computed and attached only when at least 2 points are present". -/
theorem display_plot_single_point_attaches_line :
    (display_plot [(5 : ℚ)]).points.length < 2 ∧
    (display_plot [(5 : ℚ)]).regLine ≠ none := by
  constructor
  · simp [display_plot]
  · simp [display_plot]

/-- **C6 amended.** `display_plot` never fails and skips the regression
trace exactly when the snapshot is empty; for a single reading it attaches
a trace whose fitted value is NaN (the regression itself being undefined
because the x-variance is zero). -/
theorem display_plot_line_skipped_iff_empty :
    (∀ temps : List ℚ, (display_plot temps).regLine = none ↔ temps = []) ∧
    (∀ t : ℚ, (display_plot [t]).regLine = some [none]) := by
  constructor
  · intro temps
    cases temps with
    | nil => simp [display_plot]
    | cons a l => simp [display_plot]
  · intro t
    simp only [display_plot, List.isEmpty_cons, Bool.false_eq_true, if_false,
      List.length_cons, List.length_nil, Nat.zero_add, xVals_one,
      linregress_single_point, List.map_cons, List.map_nil, Option.map_none']

/-- **C8.** On the points (0,1), (1,2), (2,3) the embedded
`scipy.stats.linregress` yields slope 1 and intercept 1, and the live view
attaches the fitted values `[1, 2, 3]`, equal to the inputs. -/
theorem linregress_unit_slope_example :
    linregress [0, 1, 2] [1, 2, 3] = some (1, 1) ∧
    display_plot [1, 2, 3] =
      { points := [1, 2, 3],
        regLine := some [some 1, some 2, some 3] } := by
  have h3 : linregress [0, 1, 2] [1, 2, 3] = some (1, 1) := by
    norm_num [linregress, listMean]
  refine ⟨h3, ?_⟩
  simp only [display_plot, List.isEmpty_cons, Bool.false_eq_true, if_false,
    List.length_cons, List.length_nil]
  norm_num [xVals_three, h3, Option.map_some']

end Dashboard
